import Mathlib

/-!
Verification of the Gemini Live Agentic console repository: the chat proxy
route (`app/api/chat/route.ts`), the design-synthesis proxy route
(`app/api/design/route.ts`) and the client-side session controller
(`Home` in `page.tsx`).  JavaScript values are embedded shallowly:
`undefined`-able fields become `Option`, JavaScript strings become `String`,
`JSON.parse` becomes a fuel-based recursive-descent function returning
`Option Json` (the `try/catch` of `safeJsonParse` is the `none` case), and
the async session controller becomes explicit state-passing functions cut at
the `await` suspension points.
-/

namespace GeminiConsole

/-! ## JSON values and a model of JavaScript JSON.parse

`Json` is the result type of a `JSON.parse` call.  Numbers are kept as a
decimal mantissa/exponent pair (`value = mantissa * 10 ^ exp10`); the routes
never read numeric fields, so only zero-ness of a number (JavaScript
falsiness) can matter.  Objects keep their key/value pairs in source order;
`lookupField` returns the last binding of a key, matching the JavaScript
semantics that a duplicated key is overwritten by the later occurrence. -/

inductive Json where
  | null : Json
  | bool (b : Bool) : Json
  | num (mantissa : Int) (exp10 : Int) : Json
  | str (s : String) : Json
  | arr (items : List Json) : Json
  | obj (fields : List (String × Json)) : Json

/-- Last binding of `key` in an object's field list (later duplicate keys
override earlier ones, as in JavaScript object literals built by
`JSON.parse`). -/
def lookupField (fields : List (String × Json)) (key : String) : Option Json :=
  fields.foldl (fun acc kv => if kv.1 = key then some kv.2 else acc) none

/-- JavaScript property access `value[key]`: only objects have the (own)
properties we read; every other value yields `undefined` (`none`). -/
def jsGetField : Json → String → Option Json
  | Json.obj fields, key => lookupField fields key
  | _, _ => none

/-- JavaScript truthiness of a parsed JSON value (`null`, `false`, `0`
and `""` are falsy; every array and object is truthy). -/
def jsTruthy : Json → Bool
  | Json.null => false
  | Json.bool b => b
  | Json.num m _ => m != 0
  | Json.str s => s != ""
  | Json.arr _ => true
  | Json.obj _ => true

/-- The JavaScript `WhiteSpace` and `LineTerminator` character set, as
stripped by `String.prototype.trim`. -/
def isJsWhite (c : Char) : Bool :=
  c = ' ' || c = '\t' || c = '\n' || c = '\r' || c = '\x0b' || c = '\x0c' ||
  c = '\u00A0' || c = '\u1680' || ('\u2000' ≤ c && c ≤ '\u200A') ||
  c = '\u2028' || c = '\u2029' || c = '\u202F' || c = '\u205F' ||
  c = '\u3000' || c = '\uFEFF'

/-- JavaScript `String.prototype.trim`: strip the whitespace set from both
ends of the string. -/
def jsTrim (s : String) : String :=
  String.mk (((s.data.dropWhile isJsWhite).reverse.dropWhile isJsWhite).reverse)

/-- JavaScript `String.prototype.toUpperCase`, as a character map.  The
mapping agrees with JavaScript on the ASCII range; the roles this client
ever sends are `user`, `assistant` and `system`. -/
def jsToUpperCase (s : String) : String :=
  String.mk (s.data.map Char.toUpper)

/-- The four whitespace characters JSON.parse skips between tokens. -/
def isJsonWs (c : Char) : Bool :=
  c = ' ' || c = '\t' || c = '\n' || c = '\r'

def skipWs : List Char → List Char
  | [] => []
  | c :: rest => if isJsonWs c then skipWs rest else c :: rest

def hexVal (c : Char) : Option Nat :=
  if '0' ≤ c ∧ c ≤ '9' then some (c.toNat - 48)
  else if 'a' ≤ c ∧ c ≤ 'f' then some (c.toNat - 97 + 10)
  else if 'A' ≤ c ∧ c ≤ 'F' then some (c.toNat - 65 + 10)
  else none

/-- Body of a JSON string literal, after the opening quote: returns the
decoded characters and the input remaining after the closing quote.
Unescaped control characters are rejected, as in JSON.parse. -/
def parseStringChars : List Char → Option (List Char × List Char)
  | [] => none
  | '\"' :: rest => some ([], rest)
  | '\\' :: '\"' :: rest => (parseStringChars rest).map (fun p => ('\"' :: p.1, p.2))
  | '\\' :: '\\' :: rest => (parseStringChars rest).map (fun p => ('\\' :: p.1, p.2))
  | '\\' :: '/' :: rest => (parseStringChars rest).map (fun p => ('/' :: p.1, p.2))
  | '\\' :: 'b' :: rest => (parseStringChars rest).map (fun p => (Char.ofNat 8 :: p.1, p.2))
  | '\\' :: 'f' :: rest => (parseStringChars rest).map (fun p => (Char.ofNat 12 :: p.1, p.2))
  | '\\' :: 'n' :: rest => (parseStringChars rest).map (fun p => ('\n' :: p.1, p.2))
  | '\\' :: 'r' :: rest => (parseStringChars rest).map (fun p => ('\r' :: p.1, p.2))
  | '\\' :: 't' :: rest => (parseStringChars rest).map (fun p => ('\t' :: p.1, p.2))
  | '\\' :: 'u' :: h1 :: h2 :: h3 :: h4 :: rest =>
    match hexVal h1, hexVal h2, hexVal h3, hexVal h4 with
    | some a, some b, some c, some d =>
      (parseStringChars rest).map
        (fun p => (Char.ofNat (a * 4096 + b * 256 + c * 16 + d) :: p.1, p.2))
    | _, _, _, _ => none
  | '\\' :: _ => none
  | c :: rest =>
    if c.toNat < 32 then none
    else (parseStringChars rest).map (fun p => (c :: p.1, p.2))

/-- Longest prefix of decimal digits, with the remaining input. -/
def takeDigits : List Char → List Char × List Char
  | [] => ([], [])
  | c :: rest =>
    if c.isDigit then
      let p := takeDigits rest
      (c :: p.1, p.2)
    else ([], c :: rest)

def digitsToNat (ds : List Char) : Nat :=
  ds.foldl (fun acc c => acc * 10 + (c.toNat - 48)) 0

def mkNum (neg : Bool) (intDs fracDs : List Char) (e : Int) : Json :=
  let m : Nat := digitsToNat (intDs ++ fracDs)
  Json.num (if neg then -(m : Int) else (m : Int)) (e - fracDs.length)

def parseExpDigits (neg : Bool) (intDs fracDs : List Char) (cs : List Char) :
    Option (Json × List Char) :=
  let signed : Int × List Char :=
    match cs with
    | '+' :: r => (1, r)
    | '-' :: r => (-1, r)
    | _ => (1, cs)
  let p := takeDigits signed.2
  if p.1 = [] then none
  else some (mkNum neg intDs fracDs (signed.1 * (digitsToNat p.1 : Int)), p.2)

def parseExpPart (neg : Bool) (intDs fracDs : List Char) (cs : List Char) :
    Option (Json × List Char) :=
  match cs with
  | 'e' :: rest => parseExpDigits neg intDs fracDs rest
  | 'E' :: rest => parseExpDigits neg intDs fracDs rest
  | _ => some (mkNum neg intDs fracDs 0, cs)

/-- A JSON number token: `-? (0 | [1-9][0-9]*) (. [0-9]+)? ([eE][+-]?[0-9]+)?`.
Leading zeros and a dot without following digits are rejected, as in
JSON.parse. -/
def parseNumber (cs : List Char) : Option (Json × List Char) :=
  let signed : Bool × List Char :=
    match cs with
    | '-' :: rest => (true, rest)
    | _ => (false, cs)
  let ip := takeDigits signed.2
  if ip.1 = [] then none
  else if ip.1.length > 1 ∧ ip.1.head? = some '0' then none
  else
    match ip.2 with
    | '.' :: rest =>
      let fp := takeDigits rest
      if fp.1 = [] then none else parseExpPart signed.1 ip.1 fp.1 fp.2
    | _ => parseExpPart signed.1 ip.1 [] ip.2

mutual

/-- One JSON value, by recursive descent; `fuel` bounds the recursion depth
and is sized generously by the top-level entry point. -/
def parseValue : Nat → List Char → Option (Json × List Char)
  | 0, _ => none
  | fuel + 1, cs =>
    match skipWs cs with
    | '\"' :: rest => (parseStringChars rest).map (fun p => (Json.str (String.mk p.1), p.2))
    | 'n' :: 'u' :: 'l' :: 'l' :: rest => some (Json.null, rest)
    | 't' :: 'r' :: 'u' :: 'e' :: rest => some (Json.bool true, rest)
    | 'f' :: 'a' :: 'l' :: 's' :: 'e' :: rest => some (Json.bool false, rest)
    | '[' :: rest =>
      (match skipWs rest with
       | ']' :: rest2 => some (Json.arr [], rest2)
       | cs2 => parseArrayItems fuel cs2 [])
    | '\x7b' :: rest =>
      (match skipWs rest with
       | '\x7d' :: rest2 => some (Json.obj [], rest2)
       | cs2 => parseObjectItems fuel cs2 [])
    | cs' => parseNumber cs'

/-- Comma-separated array elements after `[`, accumulated in order. -/
def parseArrayItems : Nat → List Char → List Json → Option (Json × List Char)
  | 0, _, _ => none
  | fuel + 1, cs, acc =>
    match parseValue fuel cs with
    | none => none
    | some (v, rest) =>
      match skipWs rest with
      | ',' :: rest2 => parseArrayItems fuel rest2 (acc ++ [v])
      | ']' :: rest2 => some (Json.arr (acc ++ [v]), rest2)
      | _ => none

/-- Comma-separated `"key": value` members after an opening brace,
accumulated in order. -/
def parseObjectItems : Nat → List Char → List (String × Json) →
    Option (Json × List Char)
  | 0, _, _ => none
  | fuel + 1, cs, acc =>
    match skipWs cs with
    | '\"' :: rest =>
      (match parseStringChars rest with
       | none => none
       | some (keyChars, rest2) =>
         match skipWs rest2 with
         | ':' :: rest3 =>
           (match parseValue fuel rest3 with
            | none => none
            | some (v, rest4) =>
              let acc2 := acc ++ [(String.mk keyChars, v)]
              match skipWs rest4 with
              | ',' :: rest5 => parseObjectItems fuel rest5 acc2
              | '\x7d' :: rest5 => some (Json.obj acc2, rest5)
              | _ => none)
         | _ => none)
    | _ => none

end

/-- JavaScript `JSON.parse`, total: `none` models a thrown `SyntaxError`.
The fuel `2 * length + 2` dominates the recursion depth, which grows by at
most two per input character consumed. -/
def jsonParse (s : String) : Option Json :=
  match parseValue (2 * s.length + 2) s.data with
  | some (v, rest) => if skipWs rest = [] then some v else none
  | none => none

/-- `safeJsonParse` from `app/api/chat/route.ts`: `JSON.parse` wrapped in
`try/catch`, returning `null` (`none`) on failure. -/
def safeJsonParse (value : String) : Option Json :=
  jsonParse value

/-! ## Gemini response shape and text extraction (both routes) -/

structure GeminiPart where
  text : Option String
deriving DecidableEq

structure GeminiContent where
  parts : Option (List GeminiPart)
deriving DecidableEq

structure GeminiCandidate where
  content : Option GeminiContent
deriving DecidableEq

structure GeminiResponse where
  candidates : Option (List GeminiCandidate)
deriving DecidableEq

/-- `extractText` (identical in `app/api/chat/route.ts` and
`app/api/design/route.ts`): destructure the first candidate
(`const [candidate] = payload.candidates ?? []`), return `""` unless
`candidate?.content?.parts` is present, else concatenate
`part?.text ?? ""` over the parts. -/
def extractText (payload : GeminiResponse) : String :=
  match (payload.candidates.getD []).head? with
  | none => ""
  | some candidate =>
    match candidate.content with
    | none => ""
    | some content =>
      match content.parts with
      | none => ""
      | some parts => String.join (parts.map (fun part => part.text.getD ""))

/-! ## The chat route's response interpretation (lines 134-148) -/

structure ChatReplyBody where
  reply : String
  plan : Option String
deriving DecidableEq

/-- The fallback branch of the chat route: the whole extracted text is the
reply (`rawText || "Gemini did not return a message."`), with no plan. -/
def fallbackReply (rawText : String) : ChatReplyBody :=
  { reply := if rawText = "" then "Gemini did not return a message." else rawText
    plan := none }

/-- Lines 136-148 of the chat route: parse the extracted text with
`safeJsonParse`; if `parsed && typeof parsed.reply === "string"` return
`{reply: parsed.reply, plan: typeof parsed.plan === "string" ? parsed.plan
: undefined}`, otherwise fall back to the raw text. -/
def chatInterpret (rawText : String) : ChatReplyBody :=
  match safeJsonParse rawText with
  | some parsed =>
    if jsTruthy parsed then
      match jsGetField parsed "reply" with
      | some (Json.str r) =>
        { reply := r
          plan :=
            match jsGetField parsed "plan" with
            | some (Json.str p) => some p
            | _ => none }
      | _ => fallbackReply rawText
    else fallbackReply rawText
  | none => fallbackReply rawText

/-- Whether the extracted text parses as a JSON object carrying a string
`reply` field — the condition separating the structured branch from the
fallback branch of the chat route. -/
def replyIsStructured (rawText : String) : Bool :=
  match safeJsonParse rawText with
  | some (Json.obj fields) =>
    match lookupField fields "reply" with
    | some (Json.str _) => true
    | _ => false
  | _ => false

/-! ## The two route handlers

A route handler is modelled as a pure function of the process environment,
the decoded request body and the upstream fetch result; the second
component of the returned pair records whether the upstream service was
contacted at all. -/

structure ConversationTurn where
  role : String
  content : String
deriving DecidableEq

structure ChatRequest where
  message : Option String
  modeId : Option String
  systemPrompt : Option String
  conversation : Option (List ConversationTurn)
deriving DecidableEq

structure Env where
  geminiApiKey : Option String
deriving DecidableEq

/-- `!process.env.GEMINI_API_KEY`: the credential is missing when the
variable is unset or the empty string (both are falsy). -/
def keyMissing (env : Env) : Bool :=
  match env.geminiApiKey with
  | none => true
  | some k => k == ""

/-- Transcript assembly, written identically in both routes:
`turns.map((turn) => turn.role.toUpperCase() + ": " + turn.content).join("\n")`. -/
def turnsTranscript (turns : List ConversationTurn) : String :=
  String.intercalate "\n"
    (turns.map (fun turn => jsToUpperCase turn.role ++ ": " ++ turn.content))

/-- Fixed text of the chat prompt before the transcript interpolation. -/
def chatPromptHeader (modeId systemPrompt : Option String) : String :=
  "\nYou are operating the Gemini Live Agentic console.\nMode ID: " ++
    modeId.getD "unknown" ++
    "\nSystem Instructions:\n" ++
    systemPrompt.getD "Maintain a helpful, agentic tone and expand user ideas." ++
    "\n\nTranscript so far:\n"

/-- Fixed text of the chat prompt after the transcript interpolation. -/
def chatPromptFooter (message : String) : String :=
  "\n\nNew live user utterance:\n" ++ message ++
    "\n\nRespond with strict JSON that matches:\n\x7b\n  \"reply\": \"string\",\n  \"plan\": \"optional string describing next agentic actions, formatted in markdown bullet points if present\"\n\x7d\n"

/-- The chat route's `userPrompt` template literal, trimmed. -/
def chatUserPrompt (modeId systemPrompt : Option String)
    (conversation : List ConversationTurn) (message : String) : String :=
  (chatPromptHeader modeId systemPrompt ++ turnsTranscript conversation ++
    chatPromptFooter message) |> jsTrim

/-- Fixed text of the design prompt before the transcript interpolation. -/
def designPromptHeader (modeId : Option String) : String :=
  "\nYou are the autonomous design autopilot for a Gemini Live mobile agent.\nAssess the current session for mode \"" ++
    modeId.getD "unspecified" ++
    "\".\n\nContext transcript:\n"

/-- Fixed text of the design prompt after the transcript interpolation. -/
def designPromptFooter (notes : Option String) : String :=
  "\n\nAdditional operator notes:\n" ++
    (if notes.getD "" = "" then "No extra notes." else notes.getD "") ++
    "\n\nOutput a crisp roadmap covering:\n1. UI/interaction adjustments (max 3 bullets)\n2. New or upgraded modes, including names and signature behaviors\n3. Integration or MCP connector opportunities with validation steps\n\nReturn markdown no longer than 220 words. Lean into agentic, actionable language.\n"

/-- The design route's `autopilotPrompt` template literal, trimmed.  An
empty transcript summary and empty (or absent) notes are replaced by fixed
placeholders, because `||` treats the empty string as falsy. -/
def designPrompt (modeId : Option String) (transcript : List ConversationTurn)
    (notes : Option String) : String :=
  (designPromptHeader modeId ++
    (if turnsTranscript transcript = "" then "No conversation captured."
     else turnsTranscript transcript) ++
    designPromptFooter notes) |> jsTrim

/-- Result of the route's `fetch` of the upstream generative endpoint:
either a non-ok response (status and body text) or an ok response whose
JSON body decodes to the `GeminiResponse` shape. -/
inductive FetchResult where
  | failure (status : Nat) (bodyText : String)
  | success (payload : GeminiResponse)
deriving DecidableEq

inductive ChatHttpBody where
  | errorOnly (error : String)
  | errorDetail (error : String) (detail : String)
  | replyBody (body : ChatReplyBody)
deriving DecidableEq

structure ChatHttpResponse where
  status : Nat
  body : ChatHttpBody
deriving DecidableEq

/-- `POST` of `app/api/chat/route.ts` as a function of environment, decoded
request body and upstream outcome.  The second component is the prompt text
sent to the upstream endpoint as the sole content part, or `none` when no
upstream call is made. -/
def chatPOST (env : Env) (req : ChatRequest) (upstream : FetchResult) :
    ChatHttpResponse × Option String :=
  if keyMissing env then
    ({ status := 500
       body := ChatHttpBody.errorOnly
         "Missing GEMINI_API_KEY environment variable. Add it to Vercel and local .env to enable live agent calls." },
     none)
  else if jsTrim (req.message.getD "") = "" then
    ({ status := 400, body := ChatHttpBody.errorOnly "Message is required." }, none)
  else
    let prompt := chatUserPrompt req.modeId req.systemPrompt (req.conversation.getD [])
      (req.message.getD "")
    match upstream with
    | FetchResult.failure status bodyText =>
      ({ status := status
         body := ChatHttpBody.errorDetail "Gemini API error" bodyText }, some prompt)
    | FetchResult.success payload =>
      ({ status := 200
         body := ChatHttpBody.replyBody (chatInterpret (extractText payload)) },
       some prompt)

structure DesignRequest where
  modeId : Option String
  notes : Option String
  transcript : Option (List ConversationTurn)
deriving DecidableEq

inductive DesignHttpBody where
  | errorOnly (error : String)
  | errorDetail (error : String) (detail : String)
  | proposal (text : String)
deriving DecidableEq

structure DesignHttpResponse where
  status : Nat
  body : DesignHttpBody
deriving DecidableEq

/-- `POST` of `app/api/design/route.ts`.  The second component is the prompt
text sent to the upstream endpoint, or `none` when no upstream call is
made. -/
def designPOST (env : Env) (req : DesignRequest) (upstream : FetchResult) :
    DesignHttpResponse × Option String :=
  if keyMissing env then
    ({ status := 500
       body := DesignHttpBody.errorOnly
         "Missing GEMINI_API_KEY environment variable. Add it to use the design autopilot." },
     none)
  else
    let prompt := designPrompt req.modeId (req.transcript.getD []) req.notes
    match upstream with
    | FetchResult.failure status bodyText =>
      ({ status := status
         body := DesignHttpBody.errorDetail "Gemini design autopilot error" bodyText },
       some prompt)
    | FetchResult.success payload =>
      ({ status := 200, body := DesignHttpBody.proposal (extractText payload) },
       some prompt)

/-! ## Client-side session controller (`Home` in `page.tsx`)

The React component's state is collected in `ClientState`.  `crypto.randomUUID`
is modelled by a strictly increasing counter `nextId` (only uniqueness of the
ids is ever used), `Date.now()` by the `clock` field, and an `AbortController`
by its id: `abortCurrent` is `recorderAbortRef.current` and `aborted` is the
set of controllers on which `abort()` has been called.  The async
`handleSubmit` is split at its `await` suspension point into
`handleSubmitStart` (the synchronous part, up to and including issuing the
`fetch`) and `handleSubmitFinish` (the continuation that runs when the fetch
settles, including the `catch` and `finally` blocks).  The browser speech
engines are out of scope of the modelled claims. -/

inductive Role where
  | user : Role
  | assistant : Role
  | system : Role
deriving DecidableEq

/-- The wire form of a role, as serialized into request bodies. -/
def Role.wire : Role → String
  | Role.user => "user"
  | Role.assistant => "assistant"
  | Role.system => "system"

structure Message where
  id : Nat
  role : Role
  content : String
  createdAt : Nat
  modeId : String
deriving DecidableEq

/-- A mode's fields used by the submission path (capabilities and the bound
speech-synthesis voice play no part in the modelled claims). -/
structure Mode where
  id : String
  name : String
  systemPrompt : String
deriving DecidableEq

structure ClientState where
  modes : List Mode
  currentModeId : String
  messages : List Message
  pendingInput : String
  isStreaming : Bool
  nextId : Nat
  clock : Nat
  abortCurrent : Option Nat
  aborted : List Nat
  chatFetches : List (Nat × ChatRequest)
deriving DecidableEq

/-- `modes.find((mode) => mode.id === currentModeId) ?? modes[0]`. -/
def currentMode (s : ClientState) : Mode :=
  ((s.modes.find? (fun mode => mode.id == s.currentModeId)).getD
    (s.modes.headD { id := "", name := "", systemPrompt := "" }))

/-- Projection of a `Message` to the `{role, content}` pair sent on the
wire by both `handleSubmit` and `handleDesignSynthesis`. -/
def Message.toTurn (m : Message) : ConversationTurn :=
  { role := m.role.wire, content := m.content }

/-- The synchronous prefix of `handleSubmit`: trim the content (the override
or the pending input); return unchanged on blank content; otherwise append
the user message, clear the pending input, enter streaming, abort any
previous in-flight controller, create a fresh controller and issue the chat
fetch.  The second component is the fresh controller's id, or `none` when
the submission was a no-op. -/
def handleSubmitStart (s : ClientState) (contentOverride : Option String) :
    ClientState × Option Nat :=
  let content := jsTrim (contentOverride.getD s.pendingInput)
  if content = "" then (s, none)
  else
    let newMessage : Message :=
      { id := s.nextId
        role := Role.user
        content := content
        createdAt := s.clock
        modeId := s.currentModeId }
    let cid := s.nextId + 1
    let payload : ChatRequest :=
      { message := some content
        modeId := some s.currentModeId
        systemPrompt := some (currentMode s).systemPrompt
        conversation := some ((s.messages ++ [newMessage]).map Message.toTurn) }
    ({ s with
        messages := s.messages ++ [newMessage]
        pendingInput := ""
        isStreaming := true
        nextId := s.nextId + 2
        aborted :=
          match s.abortCurrent with
          | some c => s.aborted ++ [c]
          | none => s.aborted
        abortCurrent := some cid
        chatFetches := s.chatFetches ++ [(cid, payload)] },
     some cid)

/-- How a chat fetch settles, seen from `handleSubmit`'s continuation:
`success` is an ok response whose JSON body decoded to `{reply, plan?}`,
`httpError` is `!response.ok` (which raises
`Gemini Live request failed: statusText`), and `rejected` is a rejected
fetch promise (network failure or abort), carrying the raised error's
message. -/
inductive FetchOutcome where
  | success (reply : String) (plan : Option String)
  | httpError (statusText : String)
  | rejected (message : String)
deriving DecidableEq

/-- Calling `abort()` on the controller of an in-flight fetch makes the
fetch promise reject with an `AbortError` (whose message text is
browser-specific) instead of whatever the network would have produced. -/
def settleOutcome (s : ClientState) (cid : Nat) (abortMessage : String)
    (oracle : FetchOutcome) : FetchOutcome :=
  if s.aborted.contains cid then FetchOutcome.rejected abortMessage else oracle

/-- The continuation of `handleSubmit` once its fetch settles: on success
append the assistant message and, when the plan is present and non-empty
(`if (plan)`), a system message carrying it; on any raised error append a
system message `Gemini live agent error: …`; in all cases finish with
`setIsStreaming(false)` (the `finally` block).  `modeIdAtCall` is the
`currentModeId` captured by the closure when the submission started. -/
def handleSubmitFinish (s : ClientState) (modeIdAtCall : String)
    (outcome : FetchOutcome) : ClientState :=
  let s' :=
    match outcome with
    | FetchOutcome.success reply plan =>
      let s1 := { s with
        messages := s.messages ++
          [({ id := s.nextId, role := Role.assistant, content := reply,
              createdAt := s.clock, modeId := modeIdAtCall } : Message)]
        nextId := s.nextId + 1 }
      (match plan with
       | some p =>
         if p = "" then s1
         else
           { s1 with
             messages := s1.messages ++
               [({ id := s1.nextId, role := Role.system, content := p,
                   createdAt := s1.clock, modeId := modeIdAtCall } : Message)]
             nextId := s1.nextId + 1 }
       | none => s1)
    | FetchOutcome.httpError statusText =>
      { s with
        messages := s.messages ++
          [({ id := s.nextId, role := Role.system,
              content := "Gemini live agent error: Gemini Live request failed: " ++ statusText,
              createdAt := s.clock, modeId := modeIdAtCall } : Message)]
        nextId := s.nextId + 1 }
    | FetchOutcome.rejected msg =>
      { s with
        messages := s.messages ++
          [({ id := s.nextId, role := Role.system,
              content := "Gemini live agent error: " ++ msg,
              createdAt := s.clock, modeId := modeIdAtCall } : Message)]
        nextId := s.nextId + 1 }
  { s' with isStreaming := false }

/-- The event-loop run in which a second submission happens while the first
chat request is still in flight: the first submission runs its synchronous
prefix and suspends at its fetch; the second submission runs its prefix
(aborting the first controller) and suspends; the first fetch, rejected by
the abort, resumes its continuation; finally the second fetch settles and
its continuation runs.  `oracle1`/`oracle2` are what the network would
deliver for each fetch if it were not aborted. -/
def twoSubmitRun (s0 : ClientState) (over1 over2 : Option String)
    (abortMessage : String) (oracle1 oracle2 : FetchOutcome) : ClientState :=
  let r1 := handleSubmitStart s0 over1
  match r1.2 with
  | none => r1.1
  | some c1 =>
    let r2 := handleSubmitStart r1.1 over2
    match r2.2 with
    | none =>
      handleSubmitFinish r2.1 s0.currentModeId (settleOutcome r2.1 c1 abortMessage oracle1)
    | some c2 =>
      let s3 :=
        handleSubmitFinish r2.1 s0.currentModeId (settleOutcome r2.1 c1 abortMessage oracle1)
      handleSubmitFinish s3 r1.1.currentModeId (settleOutcome s3 c2 abortMessage oracle2)

/-- `messages.slice(-6).map((entry) => ({role: entry.role, content:
entry.content}))` from `handleDesignSynthesis`: the at most six most recent
messages of the full session log, projected to role and content. -/
def designTranscriptOf (messages : List Message) : List ConversationTurn :=
  (messages.drop (messages.length - 6)).map Message.toTurn

/-- The request body built by `handleDesignSynthesis`, or `none` when the
guard `!scratch && messages.length === 0` returns early. -/
def designSynthesisRequest (s : ClientState) (designNotes : String) :
    Option DesignRequest :=
  let scratch := jsTrim designNotes
  if scratch = "" ∧ s.messages.length = 0 then none
  else
    some { modeId := some s.currentModeId
           notes := some scratch
           transcript := some (designTranscriptOf s.messages) }

/-- The `(role, content)` projections of the messages a settling chat fetch
appends: on success the assistant reply plus, when the plan is present and
non-empty, a system message carrying it; on an error, the single system
error message. -/
def finishTail (outcome : FetchOutcome) : List (Role × String) :=
  match outcome with
  | FetchOutcome.success reply plan =>
    (Role.assistant, reply) ::
      (match plan with
       | some p => if p = "" then [] else [(Role.system, p)]
       | none => [])
  | FetchOutcome.httpError st =>
    [(Role.system, "Gemini live agent error: Gemini Live request failed: " ++ st)]
  | FetchOutcome.rejected m => [(Role.system, "Gemini live agent error: " ++ m)]

/-- Concrete session states used to evaluate the theorems below on closed
inputs. -/
def blankClient : ClientState :=
  { modes := [{ id := "m", name := "M", systemPrompt := "sp" }]
    currentModeId := "m", messages := [], pendingInput := " \t "
    isStreaming := false, nextId := 0, clock := 0
    abortCurrent := none, aborted := [], chatFetches := [] }

def idleClient : ClientState :=
  { modes := [{ id := "flow-coach", name := "Flow Coach", systemPrompt := "Coach." }]
    currentModeId := "flow-coach", messages := [], pendingInput := ""
    isStreaming := true, nextId := 4, clock := 9
    abortCurrent := some 3, aborted := [], chatFetches := [] }

def dtClient : ClientState :=
  { modes := [{ id := "m1", name := "M1", systemPrompt := "s1" },
              { id := "m2", name := "M2", systemPrompt := "s2" }]
    currentModeId := "m2"
    messages :=
      [{ id := 0, role := Role.user, content := "a", createdAt := 0, modeId := "m1" },
       { id := 1, role := Role.assistant, content := "b", createdAt := 1, modeId := "m1" },
       { id := 2, role := Role.user, content := "c", createdAt := 2, modeId := "m2" },
       { id := 3, role := Role.assistant, content := "d", createdAt := 3, modeId := "m2" },
       { id := 4, role := Role.system, content := "e", createdAt := 4, modeId := "m1" },
       { id := 5, role := Role.user, content := "f", createdAt := 5, modeId := "m2" },
       { id := 6, role := Role.assistant, content := "g", createdAt := 6, modeId := "m1" },
       { id := 7, role := Role.user, content := "h", createdAt := 7, modeId := "m2" }]
    pendingInput := "", isStreaming := false, nextId := 8, clock := 8
    abortCurrent := none, aborted := [], chatFetches := [] }

def liveClient : ClientState :=
  { modes := [{ id := "research-navigator", name := "Research Navigator",
                systemPrompt := "You are Research Navigator." }]
    currentModeId := "research-navigator", messages := [], pendingInput := ""
    isStreaming := false, nextId := 0, clock := 0
    abortCurrent := none, aborted := [], chatFetches := [] }

def cancelClient : ClientState :=
  { modes := [{ id := "creative-director", name := "Creative Director",
                systemPrompt := "Lead with bold creative direction." }]
    currentModeId := "creative-director", messages := [], pendingInput := ""
    isStreaming := false, nextId := 0, clock := 0
    abortCurrent := none, aborted := [], chatFetches := [] }


/-! ## Shared helper lemmas -/

theorem intercalate_go_cons (sep : String) (l : List String) :
    ∀ acc b : String, String.intercalate.go acc sep (b :: l) =
      acc ++ sep ++ String.intercalate.go b sep l := by
  induction l with
  | nil => intro acc b; rfl
  | cons c l' ih =>
    intro acc b
    show String.intercalate.go (acc ++ sep ++ b) sep (c :: l') = _
    rw [ih (acc ++ sep ++ b) c, ih b c]
    simp [String.append_assoc]

theorem turnsTranscript_cons (turn next : ConversationTurn)
    (rest : List ConversationTurn) :
    turnsTranscript (turn :: next :: rest) =
      (jsToUpperCase turn.role ++ ": " ++ turn.content) ++ "\n" ++
        turnsTranscript (next :: rest) := by
  unfold turnsTranscript
  simp only [List.map_cons]
  exact intercalate_go_cons "\n" _ _ _

theorem jsTrim_sandwich (a x b : String)
    (ha : (a.data.dropWhile isJsWhite).isEmpty = false)
    (hb : (b.data.reverse.dropWhile isJsWhite).isEmpty = false) :
    jsTrim (a ++ x ++ b) =
      String.mk (a.data.dropWhile isJsWhite) ++ x ++
        String.mk (b.data.reverse.dropWhile isJsWhite).reverse := by
  apply String.ext
  simp only [jsTrim, String.data_append, List.append_assoc]
  rw [List.dropWhile_append, ha]
  simp only [Bool.false_eq_true, if_false, List.reverse_append, List.append_assoc]
  rw [List.dropWhile_append, hb]
  simp [List.reverse_append, List.reverse_reverse, List.append_assoc]

theorem isEmpty_false_append {α : Type} (l r : List α) (h : l.isEmpty = false) :
    (l ++ r).isEmpty = false := by
  cases l with
  | nil => simp at h
  | cons a as => rfl

set_option maxRecDepth 4096 in
theorem chatPromptHeader_left_solid (m sp : Option String) :
    ((chatPromptHeader m sp).data.dropWhile isJsWhite).isEmpty = false := by
  have h : (List.dropWhile isJsWhite
      ("\nYou are operating the Gemini Live Agentic console.\nMode ID: ").data).isEmpty =
      false := by decide
  unfold chatPromptHeader
  simp only [String.data_append, List.append_assoc]
  rw [List.dropWhile_append, h]
  simp only [Bool.false_eq_true, if_false]
  exact isEmpty_false_append _ _ h

set_option maxRecDepth 4096 in
theorem chatPromptFooter_right_solid (msg : String) :
    ((chatPromptFooter msg).data.reverse.dropWhile isJsWhite).isEmpty = false := by
  have h : (List.dropWhile isJsWhite
      ("\n\nRespond with strict JSON that matches:\n\x7b\n  \"reply\": \"string\",\n  \"plan\": \"optional string describing next agentic actions, formatted in markdown bullet points if present\"\n\x7d\n").data.reverse).isEmpty =
      false := by decide
  unfold chatPromptFooter
  simp only [String.data_append, List.append_assoc, List.reverse_append]
  rw [List.dropWhile_append, h]
  simp only [Bool.false_eq_true, if_false]
  exact isEmpty_false_append _ _ h

set_option maxRecDepth 4096 in
theorem designPromptHeader_left_solid (m : Option String) :
    ((designPromptHeader m).data.dropWhile isJsWhite).isEmpty = false := by
  have h : (List.dropWhile isJsWhite
      ("\nYou are the autonomous design autopilot for a Gemini Live mobile agent.\nAssess the current session for mode \"").data).isEmpty =
      false := by decide
  unfold designPromptHeader
  simp only [String.data_append, List.append_assoc]
  rw [List.dropWhile_append, h]
  simp only [Bool.false_eq_true, if_false]
  exact isEmpty_false_append _ _ h

set_option maxRecDepth 4096 in
theorem designPromptFooter_right_solid (notes : Option String) :
    ((designPromptFooter notes).data.reverse.dropWhile isJsWhite).isEmpty = false := by
  have h : (List.dropWhile isJsWhite
      ("\n\nOutput a crisp roadmap covering:\n1. UI/interaction adjustments (max 3 bullets)\n2. New or upgraded modes, including names and signature behaviors\n3. Integration or MCP connector opportunities with validation steps\n\nReturn markdown no longer than 220 words. Lean into agentic, actionable language.\n").data.reverse).isEmpty =
      false := by decide
  unfold designPromptFooter
  simp only [String.data_append, List.append_assoc, List.reverse_append]
  rw [List.dropWhile_append, h]
  simp only [Bool.false_eq_true, if_false]
  exact isEmpty_false_append _ _ h

/-! ## Claim theorems -/

/-- C6: for every upstream response payload, text extraction reads only the
first candidate's content parts and returns the concatenation of their text
fields in order; if candidates are absent, or the first candidate has no
content parts, it returns the empty string rather than an error. -/
theorem extractText_spec (c : GeminiCandidate)
    (rest : List GeminiCandidate) (parts : List GeminiPart) :
    extractText { candidates := none } = "" ∧
    extractText { candidates := some [] } = "" ∧
    extractText { candidates := some (c :: rest) } =
      extractText { candidates := some [c] } ∧
    extractText { candidates := some (({ content := none } : GeminiCandidate) :: rest) } = "" ∧
    extractText
      { candidates := some (({ content := some ({ parts := none } : GeminiContent) } :
          GeminiCandidate) :: rest) } = "" ∧
    extractText
      { candidates := some (({ content := some ({ parts := some parts } : GeminiContent) } :
          GeminiCandidate) :: rest) } =
      String.join (parts.map (fun part => part.text.getD "")) :=
  ⟨rfl, rfl, rfl, rfl, rfl, rfl⟩

/-- C3: for every request to either endpoint, a missing API credential
yields the deterministic 500 configuration-error response and no upstream
call (the response is a constant, independent of the request body and of
whatever the upstream would have answered). -/
theorem missing_key_no_upstream (env : Env) (creq : ChatRequest)
    (dreq : DesignRequest) (u1 u2 : FetchResult) (h : keyMissing env = true) :
    chatPOST env creq u1 =
      ({ status := 500
         body := ChatHttpBody.errorOnly
           "Missing GEMINI_API_KEY environment variable. Add it to Vercel and local .env to enable live agent calls." },
       none) ∧
    designPOST env dreq u2 =
      ({ status := 500
         body := DesignHttpBody.errorOnly
           "Missing GEMINI_API_KEY environment variable. Add it to use the design autopilot." },
       none) := by
  constructor <;> simp [chatPOST, designPOST, h]

/-- Witness for C3 at a concrete unset environment and concrete requests. -/
theorem missing_key_no_upstream_witness :
    keyMissing { geminiApiKey := none } = true ∧
    chatPOST { geminiApiKey := none }
        { message := some "hello", modeId := none, systemPrompt := none, conversation := none }
        (FetchResult.failure 503 "down") =
      ({ status := 500
         body := ChatHttpBody.errorOnly
           "Missing GEMINI_API_KEY environment variable. Add it to Vercel and local .env to enable live agent calls." },
       none) ∧
    designPOST { geminiApiKey := none }
        { modeId := none, notes := none, transcript := none }
        (FetchResult.failure 503 "down") =
      ({ status := 500
         body := DesignHttpBody.errorOnly
           "Missing GEMINI_API_KEY environment variable. Add it to use the design autopilot." },
       none) := by
  have h := missing_key_no_upstream { geminiApiKey := none }
    { message := some "hello", modeId := none, systemPrompt := none, conversation := none }
    { modeId := none, notes := none, transcript := none }
    (FetchResult.failure 503 "down") (FetchResult.failure 503 "down") rfl
  exact ⟨rfl, h.1, h.2⟩

/-- C4: for every chat request whose message is empty or whitespace-only
after trimming, given a configured credential, the route answers 400 with
`Message is required.` and performs no upstream call. -/
theorem blank_message_validation (env : Env) (req : ChatRequest) (u : FetchResult)
    (hkey : keyMissing env = false)
    (hmsg : jsTrim (req.message.getD "") = "") :
    chatPOST env req u =
      ({ status := 400, body := ChatHttpBody.errorOnly "Message is required." }, none) := by
  simp [chatPOST, hkey, hmsg]

/-- Witness for C4 at the spec's example input `message = "  "`. -/
theorem blank_message_validation_witness :
    keyMissing { geminiApiKey := some "k" } = false ∧
    jsTrim ((some "  " : Option String).getD "") = "" ∧
    chatPOST { geminiApiKey := some "k" }
        { message := some "  ", modeId := none, systemPrompt := none, conversation := none }
        (FetchResult.failure 503 "down") =
      ({ status := 400, body := ChatHttpBody.errorOnly "Message is required." }, none) :=
  ⟨rfl, rfl,
   blank_message_validation { geminiApiKey := some "k" }
     { message := some "  ", modeId := none, systemPrompt := none, conversation := none }
     (FetchResult.failure 503 "down") rfl rfl⟩

/-- C1: for every extracted text that parses as a JSON object with a string
`reply`, the Response Interpreter returns exactly that `reply`, and returns
the parsed `plan` exactly when it is a string, otherwise no plan. -/
theorem chat_structured_reply (rawText : String) (fields : List (String × Json))
    (r : String)
    (hp : safeJsonParse rawText = some (Json.obj fields))
    (hr : lookupField fields "reply" = some (Json.str r)) :
    (chatInterpret rawText).reply = r ∧
    (∀ p : String, lookupField fields "plan" = some (Json.str p) →
      (chatInterpret rawText).plan = some p) ∧
    ((∀ p : String, lookupField fields "plan" ≠ some (Json.str p)) →
      (chatInterpret rawText).plan = none) := by
  have hc : chatInterpret rawText =
      { reply := r
        plan :=
          match lookupField fields "plan" with
          | some (Json.str p) => some p
          | _ => none } := by
    unfold chatInterpret
    rw [hp]
    simp only [jsTruthy, jsGetField, hr, if_true]
  refine ⟨by rw [hc], ?_, ?_⟩
  · intro p hpl
    rw [hc]
    simp only [hpl]
  · intro hnone
    rw [hc]
    cases hl : lookupField fields "plan" with
    | none => simp [hl]
    | some v =>
      cases v with
      | str p => exact absurd hl (hnone p)
      | null => simp [hl]
      | bool b => simp [hl]
      | num m e => simp [hl]
      | arr xs => simp [hl]
      | obj fs => simp [hl]

/-- Witness for C1 at the spec's example payload
`{"reply":"Hello","plan":"- step one"}`. -/
theorem chat_structured_reply_witness :
    safeJsonParse "\x7b\"reply\":\"Hello\",\"plan\":\"- step one\"\x7d" =
      some (Json.obj [("reply", Json.str "Hello"), ("plan", Json.str "- step one")]) ∧
    (chatInterpret "\x7b\"reply\":\"Hello\",\"plan\":\"- step one\"\x7d").reply = "Hello" ∧
    (chatInterpret "\x7b\"reply\":\"Hello\",\"plan\":\"- step one\"\x7d").plan =
      some "- step one" := by
  have h := chat_structured_reply "\x7b\"reply\":\"Hello\",\"plan\":\"- step one\"\x7d"
    [("reply", Json.str "Hello"), ("plan", Json.str "- step one")] "Hello" rfl rfl
  exact ⟨rfl, h.1, h.2.1 "- step one" rfl⟩

/-- C2: for every extracted text that does not parse as a JSON object with
a string `reply`, the chat route returns the raw text verbatim as the
reply with no plan, substituting the fixed placeholder when the raw text is
empty, so the fallback reply is always non-empty; and the 200 response
carries exactly this interpretation of the extracted text. -/
theorem chat_fallback_raw (rawText : String)
    (h : replyIsStructured rawText = false) :
    chatInterpret rawText =
      { reply := if rawText = "" then "Gemini did not return a message." else rawText
        plan := none } ∧
    (chatInterpret rawText).reply ≠ "" ∧
    (∀ (env : Env) (req : ChatRequest) (payload : GeminiResponse),
      keyMissing env = false → jsTrim (req.message.getD "") ≠ "" →
      extractText payload = rawText →
      chatPOST env req (FetchResult.success payload) =
        ({ status := 200, body := ChatHttpBody.replyBody (chatInterpret rawText) },
         some (chatUserPrompt req.modeId req.systemPrompt (req.conversation.getD [])
           (req.message.getD "")))) := by
  have hfb : chatInterpret rawText = fallbackReply rawText := by
    unfold chatInterpret
    cases hp : safeJsonParse rawText with
    | none => rfl
    | some j =>
      cases j with
      | obj fields =>
        have h' : (match lookupField fields "reply" with
            | some (Json.str _) => true
            | _ => false) = false := by
          unfold replyIsStructured at h
          rw [hp] at h
          exact h
        simp only [jsTruthy, jsGetField, if_true]
        cases hl : lookupField fields "reply" with
        | none => rfl
        | some v =>
          cases v with
          | str s => rw [hl] at h'; simp at h'
          | null => rfl
          | bool b => rfl
          | num m e => rfl
          | arr xs => rfl
          | obj fs => rfl
      | null => rfl
      | bool b => cases b <;> rfl
      | num m e =>
        by_cases hm : m = 0 <;> simp [jsTruthy, jsGetField, hm]
      | str s =>
        by_cases hs : s = "" <;> simp [jsTruthy, jsGetField, hs]
      | arr xs => rfl
  refine ⟨by rw [hfb]; rfl, ?_, ?_⟩
  · rw [hfb]
    unfold fallbackReply
    by_cases he : rawText = ""
    · simp only [he, if_true]
      decide
    · simp only [he, if_false]
      exact he
  · intro env req payload hk hm hext
    simp only [chatPOST, hk, Bool.false_eq_true, if_false, hm, if_neg hm, hext]

/-- Witness for C2 at the spec's plain-sentence example and at the empty
extracted text. -/
theorem chat_fallback_raw_witness :
    replyIsStructured "Just a plain sentence." = false ∧
    chatInterpret "Just a plain sentence." =
      { reply := "Just a plain sentence.", plan := none } ∧
    chatInterpret "" = { reply := "Gemini did not return a message.", plan := none } := by
  refine ⟨rfl, ?_, ?_⟩
  · have h := chat_fallback_raw "Just a plain sentence." rfl
    rw [h.1]
    rfl
  · have h := chat_fallback_raw "" rfl
    rw [h.1]
    rfl

/-- C9: submitting with a blank (or whitespace-only) pending input and no
content override is a no-op: the state is returned unchanged — no user
message, no streaming flag, no controller, no fetch — and no request id is
produced. -/
theorem submit_blank_noop (s : ClientState) (h : jsTrim s.pendingInput = "") :
    handleSubmitStart s none = (s, none) := by
  simp [handleSubmitStart, h]

/-- Witness for C9 at a concrete whitespace-only pending input. -/
theorem submit_blank_noop_witness :
    jsTrim blankClient.pendingInput = "" ∧
    handleSubmitStart blankClient none = (blankClient, none) :=
  ⟨rfl, submit_blank_noop blankClient rfl⟩

/-- C10: whenever design synthesis fires, the transcript it sends is the
projection to role/content of at most the six most recent messages of the
full session log, a suffix of the whole (not mode-filtered) log. -/
theorem design_transcript_recent (s : ClientState) (notes : String)
    (req : DesignRequest)
    (h : designSynthesisRequest s notes = some req) :
    req.transcript = some (designTranscriptOf s.messages) ∧
    (designTranscriptOf s.messages).length = min s.messages.length 6 ∧
    s.messages.map Message.toTurn =
      (s.messages.take (s.messages.length - 6)).map Message.toTurn ++
        designTranscriptOf s.messages := by
  refine ⟨?_, ?_, ?_⟩
  · simp only [designSynthesisRequest] at h
    split at h
    · exact absurd h (by simp)
    · cases h; rfl
  · unfold designTranscriptOf
    rw [List.length_map, List.length_drop]
    omega
  · unfold designTranscriptOf
    rw [← List.map_append, List.take_append_drop]

/-- C8: the continuation of every issued chat submission clears the
streaming flag in its final step whatever the outcome, and on either kind
of error appends a system message carrying the error description. -/
theorem submit_cleanup_idle (s : ClientState) (modeIdAtCall : String)
    (outcome : FetchOutcome) :
    (handleSubmitFinish s modeIdAtCall outcome).isStreaming = false ∧
    (∀ msg, outcome = FetchOutcome.rejected msg →
      (handleSubmitFinish s modeIdAtCall outcome).messages =
        s.messages ++
          [{ id := s.nextId, role := Role.system
             content := "Gemini live agent error: " ++ msg
             createdAt := s.clock, modeId := modeIdAtCall }]) ∧
    (∀ statusText, outcome = FetchOutcome.httpError statusText →
      (handleSubmitFinish s modeIdAtCall outcome).messages =
        s.messages ++
          [{ id := s.nextId, role := Role.system
             content := "Gemini live agent error: Gemini Live request failed: " ++ statusText
             createdAt := s.clock, modeId := modeIdAtCall }]) := by
  refine ⟨?_, ?_, ?_⟩
  · cases outcome with
    | success reply plan =>
      cases plan with
      | none => rfl
      | some p =>
        by_cases hp : p = "" <;> simp [handleSubmitFinish, hp]
    | httpError st => rfl
    | rejected msg => rfl
  · intro msg h
    subst h
    rfl
  · intro st h
    subst h
    rfl

/-- Witness for C8 at a concrete rejected fetch. -/
theorem submit_cleanup_idle_witness :
    (handleSubmitFinish idleClient "flow-coach"
        (FetchOutcome.rejected "Failed to fetch")).isStreaming = false ∧
    (handleSubmitFinish idleClient "flow-coach"
        (FetchOutcome.rejected "Failed to fetch")).messages =
      idleClient.messages ++
        [{ id := 4, role := Role.system
           content := "Gemini live agent error: Failed to fetch"
           createdAt := 9, modeId := "flow-coach" }] :=
  ⟨(submit_cleanup_idle idleClient "flow-coach" (FetchOutcome.rejected "Failed to fetch")).1,
   (submit_cleanup_idle idleClient "flow-coach" (FetchOutcome.rejected "Failed to fetch")).2.1
     "Failed to fetch" rfl⟩

/-- C5: the transcripts assembled by both gateways list the conversation
turns as `ROLE: content` lines (role uppercased) in the original order,
and each assembled prompt contains that transcript in one piece. -/
theorem gateway_prompt_preserves_turns (m sp notes : Option String) (msg : String)
    (turn next : ConversationTurn) (rest conv : List ConversationTurn) :
    turnsTranscript [] = "" ∧
    turnsTranscript [turn] = jsToUpperCase turn.role ++ ": " ++ turn.content ∧
    turnsTranscript (turn :: next :: rest) =
      (jsToUpperCase turn.role ++ ": " ++ turn.content) ++ "\n" ++
        turnsTranscript (next :: rest) ∧
    (∃ pre post : String,
      chatUserPrompt m sp conv msg = pre ++ turnsTranscript conv ++ post) ∧
    (turnsTranscript conv ≠ "" →
      ∃ pre post : String,
        designPrompt m conv notes = pre ++ turnsTranscript conv ++ post) := by
  refine ⟨rfl, rfl, turnsTranscript_cons turn next rest, ?_, ?_⟩
  · exact ⟨_, _, jsTrim_sandwich _ _ _ (chatPromptHeader_left_solid m sp)
      (chatPromptFooter_right_solid msg)⟩
  · intro hne
    have hd : designPrompt m conv notes =
        String.mk ((designPromptHeader m).data.dropWhile isJsWhite) ++
          turnsTranscript conv ++
          String.mk ((designPromptFooter notes).data.reverse.dropWhile isJsWhite).reverse := by
      unfold designPrompt
      rw [if_neg hne]
      exact jsTrim_sandwich _ _ _ (designPromptHeader_left_solid m)
        (designPromptFooter_right_solid notes)
    exact ⟨_, _, hd⟩

/-- Witness for C5 at a concrete two-turn conversation. -/
theorem gateway_prompt_preserves_turns_witness :
    turnsTranscript
        [{ role := "user", content := "Hi" }, { role := "assistant", content := "Yo" }] =
      "USER: Hi\nASSISTANT: Yo" ∧
    (∃ pre post : String,
      chatUserPrompt (some "flow-coach") (some "Coach.")
          [{ role := "user", content := "Hi" }, { role := "assistant", content := "Yo" }]
          "msg" =
        pre ++ turnsTranscript
          [{ role := "user", content := "Hi" }, { role := "assistant", content := "Yo" }] ++
          post) ∧
    (∃ pre post : String,
      designPrompt (some "flow-coach")
          [{ role := "user", content := "Hi" }, { role := "assistant", content := "Yo" }]
          (some "notes") =
        pre ++ turnsTranscript
          [{ role := "user", content := "Hi" }, { role := "assistant", content := "Yo" }] ++
          post) := by
  have h := gateway_prompt_preserves_turns (some "flow-coach") (some "Coach.") (some "notes")
    "msg" { role := "user", content := "Hi" } { role := "assistant", content := "Yo" } []
    [{ role := "user", content := "Hi" }, { role := "assistant", content := "Yo" }]
  exact ⟨rfl, h.2.2.2.1, h.2.2.2.2 (by decide)⟩

/-- A submission with non-blank content fires: the explicit state after the
synchronous prefix of `handleSubmit`, with the fresh controller id. -/
theorem handleSubmitStart_fires (s : ClientState) (over : Option String)
    (h : jsTrim (over.getD s.pendingInput) ≠ "") :
    handleSubmitStart s over =
      ({ s with
          messages := s.messages ++
            [{ id := s.nextId, role := Role.user
               content := jsTrim (over.getD s.pendingInput)
               createdAt := s.clock, modeId := s.currentModeId }]
          pendingInput := ""
          isStreaming := true
          nextId := s.nextId + 2
          aborted :=
            match s.abortCurrent with
            | some c => s.aborted ++ [c]
            | none => s.aborted
          abortCurrent := some (s.nextId + 1)
          chatFetches := s.chatFetches ++
            [(s.nextId + 1,
              { message := some (jsTrim (over.getD s.pendingInput))
                modeId := some s.currentModeId
                systemPrompt := some (currentMode s).systemPrompt
                conversation := some ((s.messages ++
                  [({ id := s.nextId, role := Role.user
                      content := jsTrim (over.getD s.pendingInput)
                      createdAt := s.clock, modeId := s.currentModeId } : Message)]).map
                  Message.toTurn) })] },
       some (s.nextId + 1)) := by
  unfold handleSubmitStart
  rw [if_neg h]

theorem handleSubmitFinish_messages (s : ClientState) (modeIdAtCall : String)
    (outcome : FetchOutcome) :
    (handleSubmitFinish s modeIdAtCall outcome).messages.map
        (fun m => (m.role, m.content)) =
      s.messages.map (fun m => (m.role, m.content)) ++ finishTail outcome := by
  cases outcome with
  | success reply plan =>
    cases plan with
    | none => simp [handleSubmitFinish, finishTail]
    | some p => by_cases hp : p = "" <;> simp [handleSubmitFinish, finishTail, hp]
  | httpError st => simp [handleSubmitFinish, finishTail]
  | rejected m => simp [handleSubmitFinish, finishTail]

theorem handleSubmitFinish_aborted (s : ClientState) (modeIdAtCall : String)
    (outcome : FetchOutcome) :
    (handleSubmitFinish s modeIdAtCall outcome).aborted = s.aborted := by
  cases outcome with
  | success reply plan =>
    cases plan with
    | none => rfl
    | some p => by_cases hp : p = "" <;> simp [handleSubmitFinish, hp]
  | httpError st => rfl
  | rejected m => rfl

theorem settleOutcome_of_contains (s : ClientState) (cid : Nat)
    (abortMessage : String) (oracle : FetchOutcome)
    (h : s.aborted.contains cid = true) :
    settleOutcome s cid abortMessage oracle = FetchOutcome.rejected abortMessage := by
  unfold settleOutcome
  rw [h]
  rfl

theorem settleOutcome_of_not_contains (s : ClientState) (cid : Nat)
    (abortMessage : String) (oracle : FetchOutcome)
    (h : s.aborted.contains cid = false) :
    settleOutcome s cid abortMessage oracle = oracle := by
  unfold settleOutcome
  rw [h]
  rfl

/-- Witness for C10 at a concrete eight-message log spanning two modes: the
transcript sent is the last six messages regardless of mode. -/
theorem design_transcript_recent_witness :
    designSynthesisRequest dtClient "improve" =
      some { modeId := some "m2", notes := some "improve"
             transcript := some (designTranscriptOf dtClient.messages) } ∧
    (designTranscriptOf dtClient.messages).length = min dtClient.messages.length 6 ∧
    dtClient.messages.map Message.toTurn =
      (dtClient.messages.take (dtClient.messages.length - 6)).map Message.toTurn ++
        designTranscriptOf dtClient.messages := by
  have h := design_transcript_recent dtClient "improve"
    { modeId := some "m2", notes := some "improve"
      transcript := some (designTranscriptOf dtClient.messages) } (by rfl)
  exact ⟨by rfl, h.2.1, h.2.2⟩

/-- C7 counterexample: in the canonical two-submission run the second
request succeeds with reply `second reply`, yet the history also receives a
system message carrying the aborted first request's error — so it is not
the case that only the second request's result (or error) is ever appended.
-/
theorem two_submit_first_error_appended :
    (twoSubmitRun liveClient (some "first question") (some "second question")
        "The user aborted a request."
        (FetchOutcome.success "late first reply" none)
        (FetchOutcome.success "second reply" none)).messages.map
      (fun msg => (msg.role, msg.content)) =
      [(Role.user, "first question"), (Role.user, "second question"),
       (Role.system, "Gemini live agent error: The user aborted a request."),
       (Role.assistant, "second reply")] := by
  rfl

/-- C7 (amended): submitting while a first chat request is in flight aborts
the first controller before the second fetch is issued, the first fetch
settles as the abort rejection (its network result is discarded), the
second fetch settles untouched, and the final history is the base history
plus the two user messages, one system message surfacing the first
request's abort error, and then exactly the second request's outcome. -/
theorem two_submit_cancels_first (s0 : ClientState) (over1 over2 : Option String)
    (abortMessage : String) (oracle1 oracle2 : FetchOutcome)
    (h1 : jsTrim (over1.getD s0.pendingInput) ≠ "")
    (h2 : jsTrim (over2.getD "") ≠ "")
    (hfa : ∀ a ∈ s0.aborted, a < s0.nextId)
    (hfc : ∀ c, s0.abortCurrent = some c → c < s0.nextId) :
    ∃ s1 s2 : ClientState, ∃ c1 c2 : Nat,
      handleSubmitStart s0 over1 = (s1, some c1) ∧
      handleSubmitStart s1 over2 = (s2, some c2) ∧
      s2.aborted = s1.aborted ++ [c1] ∧
      settleOutcome s2 c1 abortMessage oracle1 = FetchOutcome.rejected abortMessage ∧
      settleOutcome
          (handleSubmitFinish s2 s0.currentModeId (FetchOutcome.rejected abortMessage))
          c2 abortMessage oracle2 = oracle2 ∧
      (twoSubmitRun s0 over1 over2 abortMessage oracle1 oracle2).messages.map
          (fun m => (m.role, m.content)) =
        s0.messages.map (fun m => (m.role, m.content)) ++
          [(Role.user, jsTrim (over1.getD s0.pendingInput)),
           (Role.user, jsTrim (over2.getD "")),
           (Role.system, "Gemini live agent error: " ++ abortMessage)] ++
          finishTail oracle2 := by
  have e1 := handleSubmitStart_fires s0 over1 h1
  have q1pend : (handleSubmitStart s0 over1).1.pendingInput = "" := by rw [e1]
  have q1next : (handleSubmitStart s0 over1).1.nextId = s0.nextId + 2 := by rw [e1]
  have q1mode : (handleSubmitStart s0 over1).1.currentModeId = s0.currentModeId := by rw [e1]
  have q1cur : (handleSubmitStart s0 over1).1.abortCurrent = some (s0.nextId + 1) := by rw [e1]
  have q1abort : (handleSubmitStart s0 over1).1.aborted =
      (match s0.abortCurrent with
       | some c => s0.aborted ++ [c]
       | none => s0.aborted) := by rw [e1]
  have q1mess : (handleSubmitStart s0 over1).1.messages =
      s0.messages ++
        [{ id := s0.nextId, role := Role.user
           content := jsTrim (over1.getD s0.pendingInput)
           createdAt := s0.clock, modeId := s0.currentModeId }] := by rw [e1]
  have p1 : (handleSubmitStart s0 over1).2 = some (s0.nextId + 1) := by rw [e1]
  have h2' : jsTrim (over2.getD (handleSubmitStart s0 over1).1.pendingInput) ≠ "" := by
    rw [q1pend]; exact h2
  have e2 := handleSubmitStart_fires (handleSubmitStart s0 over1).1 over2 h2'
  have p2 : (handleSubmitStart (handleSubmitStart s0 over1).1 over2).2 =
      some (s0.nextId + 3) := by rw [e2, q1next]
  have q2abort : (handleSubmitStart (handleSubmitStart s0 over1).1 over2).1.aborted =
      (handleSubmitStart s0 over1).1.aborted ++ [s0.nextId + 1] := by
    rw [e2]
    dsimp only
    rw [q1cur]
  have q2mess : (handleSubmitStart (handleSubmitStart s0 over1).1 over2).1.messages =
      (handleSubmitStart s0 over1).1.messages ++
        [{ id := (handleSubmitStart s0 over1).1.nextId, role := Role.user
           content := jsTrim (over2.getD "")
           createdAt := (handleSubmitStart s0 over1).1.clock
           modeId := (handleSubmitStart s0 over1).1.currentModeId }] := by
    rw [e2]
    dsimp only
    rw [q1pend]
  have hcon1 : (handleSubmitStart (handleSubmitStart s0 over1).1 over2).1.aborted.contains
      (s0.nextId + 1) = true := by
    rw [q2abort]
    exact List.elem_iff.2 (List.mem_append.2 (Or.inr (List.mem_singleton.2 rfl)))
  have hB := settleOutcome_of_contains
    (handleSubmitStart (handleSubmitStart s0 over1).1 over2).1 (s0.nextId + 1)
    abortMessage oracle1 hcon1
  have hnomem : (handleSubmitStart (handleSubmitStart s0 over1).1 over2).1.aborted.contains
      (s0.nextId + 3) = false := by
    rw [q2abort, q1abort]
    rw [Bool.eq_false_iff]
    intro hcontains
    have hm := List.elem_iff.1 hcontains
    rcases List.mem_append.1 hm with hA | hB'
    · cases hac : s0.abortCurrent with
      | none =>
        rw [hac] at hA
        have := hfa _ hA
        omega
      | some c =>
        rw [hac] at hA
        rcases List.mem_append.1 hA with hA' | hA'
        · have := hfa _ hA'
          omega
        · have hc := List.mem_singleton.1 hA'
          have := hfc c hac
          omega
    · have := List.mem_singleton.1 hB'
      omega
  have hC := settleOutcome_of_not_contains
    (handleSubmitFinish (handleSubmitStart (handleSubmitStart s0 over1).1 over2).1
      s0.currentModeId (FetchOutcome.rejected abortMessage))
    (s0.nextId + 3) abortMessage oracle2
    (by rw [handleSubmitFinish_aborted]; exact hnomem)
  have hD : (twoSubmitRun s0 over1 over2 abortMessage oracle1 oracle2).messages.map
      (fun m => (m.role, m.content)) =
      s0.messages.map (fun m => (m.role, m.content)) ++
        [(Role.user, jsTrim (over1.getD s0.pendingInput)),
         (Role.user, jsTrim (over2.getD "")),
         (Role.system, "Gemini live agent error: " ++ abortMessage)] ++
        finishTail oracle2 := by
    unfold twoSubmitRun
    dsimp only
    rw [p1]
    dsimp only
    rw [p2]
    dsimp only
    rw [hB, hC, handleSubmitFinish_messages, handleSubmitFinish_messages]
    rw [q2mess, q1mess, q1next, q1mode]
    simp [finishTail, List.map_append, List.append_assoc]
  exact ⟨(handleSubmitStart s0 over1).1,
    (handleSubmitStart (handleSubmitStart s0 over1).1 over2).1,
    s0.nextId + 1, s0.nextId + 3,
    by rw [← p1], by rw [← p2], q2abort, hB, hC, hD⟩

/-- Witness for the amended C7 at a concrete fresh session. -/
theorem two_submit_cancels_first_witness :
    ∃ s1 s2 : ClientState, ∃ c1 c2 : Nat,
      handleSubmitStart cancelClient (some "first") = (s1, some c1) ∧
      handleSubmitStart s1 (some "second") = (s2, some c2) ∧
      s2.aborted = s1.aborted ++ [c1] ∧
      settleOutcome s2 c1 "The user aborted a request."
          (FetchOutcome.success "late" none) =
        FetchOutcome.rejected "The user aborted a request." ∧
      settleOutcome
          (handleSubmitFinish s2 cancelClient.currentModeId
            (FetchOutcome.rejected "The user aborted a request."))
          c2 "The user aborted a request." (FetchOutcome.success "ok" none) =
        FetchOutcome.success "ok" none ∧
      (twoSubmitRun cancelClient (some "first") (some "second")
          "The user aborted a request."
          (FetchOutcome.success "late" none)
          (FetchOutcome.success "ok" none)).messages.map
          (fun m => (m.role, m.content)) =
        cancelClient.messages.map (fun m => (m.role, m.content)) ++
          [(Role.user, jsTrim ((some "first" : Option String).getD cancelClient.pendingInput)),
           (Role.user, jsTrim ((some "second" : Option String).getD "")),
           (Role.system, "Gemini live agent error: The user aborted a request.")] ++
          finishTail (FetchOutcome.success "ok" none) :=
  two_submit_cancels_first cancelClient (some "first") (some "second")
    "The user aborted a request." (FetchOutcome.success "late" none)
    (FetchOutcome.success "ok" none) (by decide) (by decide) (by decide)
    (fun c hc => Option.noConfusion hc)


end GeminiConsole
